import Mathlib

/-!
Shallow embedding of the NAT-PMP transactor core
(src/automap/src/comm_layer/pmp.rs) and proofs about it.

External collaborators (the packet codec, the UDP socket, the free-port
picker) are represented by their observable outcomes: a TransactEnv record
scripts the result of each socket operation and the parse result of the
datagram that arrives, exactly as the production code consumes them.
Functions that can panic in Rust (expect, todo) return the panicked
constructor of Outcome carrying the panic message.
-/

/-- Direction field of a PMP packet. -/
inductive Direction
  | request
  | response
deriving DecidableEq, Repr

/-- Opcode field of a PMP packet. -/
inductive Opcode
  | get
  | mapUdp
  | mapTcp
  | other (code : Nat)
deriving DecidableEq, Repr

/-- Debug rendering of an opcode, as produced by the Rust derive. -/
def opcodeName : Opcode → String
  | .get => ("Get")
  | .mapUdp => ("MapUdp")
  | .mapTcp => ("MapTcp")
  | .other code => ("Other(") ++ toString code ++ (")")

/-- Result codes of the NAT-PMP protocol. -/
inductive ResultCode
  | success
  | unsupportedVersion
  | notAuthorized
  | networkFailure
  | outOfResources
  | unsupportedOpcode
deriving DecidableEq, Repr

/-- Debug rendering of a result code, as produced by the Rust derive. -/
def resultCodeName : ResultCode → String
  | .success => ("Success")
  | .unsupportedVersion => ("UnsupportedVersion")
  | .notAuthorized => ("NotAuthorized")
  | .networkFailure => ("NetworkFailure")
  | .outOfResources => ("OutOfResources")
  | .unsupportedOpcode => ("UnsupportedOpcode")

/-- Modelled from the spec: the is_permanent predicate of ResultCode lives in
the protocols crate, outside the sources at hand. The spec fixes only that
the predicate divides failure codes into permanent and transient classes,
that OutOfResources is transient and UnsupportedOpcode is permanent
(scenarios 3 and 4); the tests in pmp.rs additionally show
UnsupportedVersion is permanent. The remaining rows follow RFC 6886
practice. Every theorem below that touches this predicate is stated
uniformly in its value, so the exact table is never load-bearing. -/
def ResultCode.is_permanent : ResultCode → Bool
  | .success => false
  | .unsupportedVersion => true
  | .notAuthorized => true
  | .networkFailure => false
  | .outOfResources => false
  | .unsupportedOpcode => true

/-- Opcode-specific payload of a PMP packet (GetOpcodeData, MapOpcodeData,
or UnrecognizedData). IPv4 addresses are modelled as Nat. -/
inductive OpcodeData
  | get (epoch_opt : Option Nat) (external_ip_address_opt : Option Nat)
  | map (epoch_opt : Option Nat) (internal_port : Nat) (external_port : Nat) (lifetime : Nat)
  | unrecognized
deriving DecidableEq, Repr

/-- A parsed PMP packet. -/
structure PmpPacket where
  direction : Direction
  opcode : Opcode
  result_code_opt : Option ResultCode
  opcode_data : OpcodeData
deriving DecidableEq, Repr

/-- A socket address: IPv4 address (as Nat) plus port. -/
structure SockAddr where
  ip : Nat
  port : Nat
deriving DecidableEq, Repr

/-- Kind of an I/O error returned by a socket operation. -/
inductive IoErrorKind
  | wouldBlock
  | timedOut
  | otherError (desc : String)
deriving DecidableEq, Repr

/-- Debug rendering of an I/O error. -/
def IoErrorKind.describe : IoErrorKind → String
  | .wouldBlock => ("WouldBlock")
  | .timedOut => ("TimedOut")
  | .otherError desc => desc

/-- Cause attached to socket send and receive errors. -/
inductive AutomapErrorCause
  | unknown (desc : String)
  | socketFailure
deriving DecidableEq, Repr

/-- The error taxonomy of the comm layer, restricted to the variants the
PMP transactor produces. -/
inductive AutomapError
  | socketBindingError (desc : String) (addr : SockAddr)
  | socketSendError (cause : AutomapErrorCause)
  | socketReceiveError (cause : AutomapErrorCause)
  | packetParseError (desc : String)
  | protocolError (msg : String)
  | transactionFailure (code_name : String)
  | temporaryMappingError (code_name : String)
  | permanentMappingError (code_name : String)
  | changeHandlerAlreadyRunning
  | changeHandlerUnconfigured
deriving DecidableEq, Repr

/-- Result of running a fallible Rust computation: value, error return, or
panic (expect or todo) with the panic message. -/
inductive Outcome (α : Type)
  | ok (value : α)
  | err (e : AutomapError)
  | panicked (msg : String)
deriving DecidableEq, Repr

/-- Scripted behavior of the environment during one transact call: the
results of socket bind, set_read_timeout, and send_to; the receive outcome,
which on success carries the parse result of the received datagram; and the
ephemeral port the free-port factory hands out. -/
structure TransactEnv where
  bind_result : Except String Unit
  set_read_timeout_result : Except String Unit
  send_result : Except String Unit
  recv_result : Except IoErrorKind (Except String PmpPacket)
  free_port : Nat
deriving Repr

/-- Socket operations performed by one transact call. -/
structure TransactEvents where
  sends : Nat
  recvs : Nat
deriving DecidableEq, Repr

/-- PmpTransactor::transact. One marshalled send to the router, one receive
with a fixed 3-second timeout, one parse; each failure is mapped to its
typed error. The returned TransactEvents counts send_to and recv_from
invocations. -/
def PmpTransactor.transact (router_addr : SockAddr) (request : PmpPacket)
    (env : TransactEnv) : Outcome PmpPacket × TransactEvents :=
  match env.bind_result with
  | .error e => (.err (.socketBindingError e ⟨0, env.free_port⟩), ⟨0, 0⟩)
  | .ok _ =>
    match env.set_read_timeout_result with
    | .error _ => (.panicked ("set_read_timeout failed"), ⟨0, 0⟩)
    | .ok _ =>
      match env.send_result with
      | .error e => (.err (.socketSendError (.unknown e)), ⟨1, 0⟩)
      | .ok _ =>
        match env.recv_result with
        | .error k =>
          if k = .wouldBlock ∨ k = .timedOut then
            (.err (.protocolError ("Timed out after 3 seconds")), ⟨1, 1⟩)
          else
            (.err (.socketReceiveError (.unknown k.describe)), ⟨1, 1⟩)
        | .ok (.error pe) => (.err (.packetParseError pe), ⟨1, 1⟩)
        | .ok (.ok pkt) => (.ok pkt, ⟨1, 1⟩)

/-- MappingAdderReal::add_mapping. Builds the MapTcp request, runs the
transaction, validates direction and opcode, downcasts the payload, and
classifies the result code. -/
def MappingAdderReal.add_mapping (router_addr : SockAddr) (hole_port lifetime : Nat)
    (env : TransactEnv) : Outcome Nat :=
  let request : PmpPacket :=
    { direction := .request, opcode := .mapTcp, result_code_opt := none,
      opcode_data := .map none hole_port hole_port lifetime }
  match (PmpTransactor.transact router_addr request env).1 with
  | .err e => .err e
  | .panicked m => .panicked m
  | .ok response =>
    if response.direction = .request then
      .err (.protocolError ("Map response labeled as request"))
    else if response.opcode ≠ .mapTcp then
      .err (.protocolError (("Expected MapTcp response; got ") ++ opcodeName response.opcode
        ++ (" response instead")))
    else
      match response.opcode_data with
      | .map _ _ _ granted =>
        match response.result_code_opt with
        | none => .panicked ("transact allowed absent result code")
        | some .success => .ok (granted / 2)
        | some rc =>
          let msg := resultCodeName rc
          if rc.is_permanent then .err (.permanentMappingError msg)
          else .err (.temporaryMappingError msg)
      | _ => .panicked ("MapTcp response contained other than MapOpcodeData")

/-- ChangeHandlerConfig: the stored mapping configuration (hole port and
requested lifetime). -/
structure ChangeHandlerConfig where
  hole_port : Nat
  lifetime : Nat
deriving DecidableEq, Repr

/-- The mutable state of a PmpTransactor facade that the modelled
operations read and write, plus a ghost count of Worker threads spawned. -/
structure TransactorModel where
  change_handler_config_opt : Option ChangeHandlerConfig
  housekeeper_commander : Bool
  workers_created : Nat
deriving DecidableEq, Repr

/-- PmpTransactor::add_mapping. Delegates to the mapping adder; on success
replaces the stored ChangeHandlerConfig with the requested hole port and
lifetime and returns the interval. -/
def PmpTransactor.add_mapping (m : TransactorModel) (router_addr : SockAddr)
    (hole_port lifetime : Nat) (env : TransactEnv) : Outcome Nat × TransactorModel :=
  match MappingAdderReal.add_mapping router_addr hole_port lifetime env with
  | .ok remap_interval =>
    (.ok remap_interval, { m with change_handler_config_opt := some ⟨hole_port, lifetime⟩ })
  | .err e => (.err e, m)
  | .panicked s => (.panicked s, m)

/-- PmpTransactor::delete_mapping: add_mapping with lifetime 0, interval
discarded. -/
def PmpTransactor.delete_mapping (m : TransactorModel) (router_addr : SockAddr)
    (hole_port : Nat) (env : TransactEnv) : Outcome Unit × TransactorModel :=
  match PmpTransactor.add_mapping m router_addr hole_port 0 env with
  | (.ok _, m2) => (.ok (), m2)
  | (.err e, m2) => (.err e, m2)
  | (.panicked s, m2) => (.panicked s, m2)

/-- The fixed multicast group 224.0.0.1 on which announcements arrive,
encoded as a Nat the way all IPv4 addresses are in this model. -/
def multicast_ip : Nat := 224 * 16777216 + 1

/-- Result of PmpTransactor::start_housekeeping_thread. The started variant
carries the ChangeHandlerConfig snapshot handed to the spawned Worker. -/
inductive StartResult
  | started (snapshot : ChangeHandlerConfig)
  | alreadyRunning
  | unconfigured
  | bindingError (desc : String) (addr : SockAddr)
deriving DecidableEq, Repr

/-- PmpTransactor::start_housekeeping_thread. Refuses when a commander is
already held, then when no ChangeHandlerConfig is stored, then when the
announcement socket cannot be bound; otherwise stores the commander and
spawns a Worker carrying a snapshot of the config. -/
def PmpTransactor.start_housekeeping_thread (m : TransactorModel) (listen_port : Nat)
    (bind_result : Except String Unit) : StartResult × TransactorModel :=
  if m.housekeeper_commander then (.alreadyRunning, m)
  else
    match m.change_handler_config_opt with
    | none => (.unconfigured, m)
    | some chc =>
      match bind_result with
      | .error e => (.bindingError e ⟨multicast_ip, listen_port⟩, m)
      | .ok _ =>
        (.started chc,
          { m with housekeeper_commander := true, workers_created := m.workers_created + 1 })

/-- PmpTransactor::stop_housekeeping_thread: takes the commander if one is
held (enqueueing Stop); idempotent. -/
def PmpTransactor.stop_housekeeping_thread (m : TransactorModel) : TransactorModel :=
  { m with housekeeper_commander := false }

/-- PmpTransactor::get_public_ip. Composes the Get request, runs the
transaction, then reads the result code and the external IP with expect
calls that panic when the fields are absent or the payload is not
Get-shaped. -/
def PmpTransactor.get_public_ip (router_addr : SockAddr) (env : TransactEnv) : Outcome Nat :=
  let request : PmpPacket :=
    { direction := .request, opcode := .get, result_code_opt := none,
      opcode_data := .get none none }
  match (PmpTransactor.transact router_addr request env).1 with
  | .err e => .err e
  | .panicked m => .panicked m
  | .ok response =>
    match response.result_code_opt with
    | none => .panicked ("transact allowed absent result code")
    | some .success =>
      match response.opcode_data with
      | .get _ (some ip) => .ok ip
      | .get _ none => .panicked ("Response parsing inoperative - external IP address")
      | _ => .panicked ("Response parsing inoperative - opcode data")
    | some rc => .err (.transactionFailure (resultCodeName rc))

/-- A Rust Duration: whole seconds plus nanoseconds. -/
structure DurationM where
  secs : Nat
  nanos : Nat
deriving DecidableEq, Repr

/-- Duration::from_secs. -/
def DurationM.from_secs (s : Nat) : DurationM := ⟨s, 0⟩

/-- Duration::from_millis. -/
def DurationM.from_millis (ms : Nat) : DurationM := ⟨ms / 1000, (ms % 1000) * 1000000⟩

/-- Total nanoseconds of a Duration; Durations compare by this value. -/
def DurationM.toNanos (d : DurationM) : Nat := d.secs * 1000000000 + d.nanos

/-- The lifetime in whole seconds that remap_port sends: as_secs truncated
to u32, then clamped up to at least 1. -/
def remapLifetimeSecs (requested_lifetime : DurationM) : Nat :=
  let requested_lifetime_secs := requested_lifetime.secs % 4294967296
  if requested_lifetime_secs < 1 then 1 else requested_lifetime_secs

/-- PmpTransactor::remap_port: logs, converts the requested lifetime, and
delegates to the mapping adder (here an abstract function from hole port
and lifetime to an outcome, standing for the dyn MappingAdder object). -/
def PmpTransactor.remap_port (adder : Nat → Nat → Outcome Nat) (hole_port : Nat)
    (requested_lifetime : DurationM) : Outcome Nat :=
  adder hole_port (remapLifetimeSecs requested_lifetime)

/-- PmpTransactor::parse_buffer. Input is the parse result of the received
announcement buffer together with its source address; output is the
announced external IPv4 address or a logged-and-ignored protocol error.
Addresses are rendered as ip:port over the Nat encoding. -/
def sockAddrName (addr : SockAddr) : String :=
  toString addr.ip ++ (":") ++ toString addr.port

/-- PmpTransactor::parse_buffer proper (see sockAddrName for rendering). -/
def PmpTransactor.parse_buffer (parsed : Except String PmpPacket)
    (source_address : SockAddr) : Outcome Nat :=
  match parsed with
  | .error _ =>
    .err (.protocolError (("Unparseable packet from router at ")
      ++ sockAddrName source_address ++ (": ignoring")))
  | .ok packet =>
    if packet.direction ≠ .response then
      .err (.protocolError (("Unexpected PMP Get request (request!) from router at ")
        ++ sockAddrName source_address ++ (": ignoring")))
    else if packet.opcode = .get then
      match packet.opcode_data with
      | .get _ (some ip) => .ok ip
      | .get _ none => .panicked ("A Response should always produce an external ip address")
      | _ => .panicked ("A Get opcode cannot parse anything but GetOpcodeData")
    else
      .err (.protocolError (("Unexpected PMP ") ++ opcodeName packet.opcode
        ++ (" response (instead of Get) from router at ")
        ++ sockAddrName source_address ++ (": ignoring")))

/-- Change notifications delivered to the observer. -/
inductive AutomapChange
  | newIp (ip : Nat)
  | error (e : AutomapError)
deriving DecidableEq, Repr

/-- Commands accepted by the housekeeping Worker. -/
inductive HousekeepingThreadCommand
  | stop
  | setRemapIntervalMs (ms : Nat)
deriving DecidableEq, Repr

/-- PmpTransactor::handle_announcement. Sends a MapTcp request for the
configured hole port and lifetime; on Success notifies the observer of the
new IP, otherwise notifies it of the classified error. Returns the list of
changes delivered, or the message of a panic inside transact. -/
def PmpTransactor.handle_announcement (env : TransactEnv) (router_address : SockAddr)
    (public_ip : Nat) (chc : ChangeHandlerConfig) : Except String (List AutomapChange) :=
  let packet : PmpPacket :=
    { direction := .request, opcode := .mapTcp, result_code_opt := none,
      opcode_data := .map none chc.hole_port chc.hole_port chc.lifetime }
  match (PmpTransactor.transact router_address packet env).1 with
  | .ok response =>
    match response.result_code_opt with
    | some .success => .ok [.newIp public_ip]
    | some rc =>
      let err_msg := ("Remapping after IP change failed; Node is useless: ")
        ++ resultCodeName rc
      .ok [.error (if rc.is_permanent then .permanentMappingError err_msg
        else .temporaryMappingError err_msg)]
    | none =>
      .ok [.error (.protocolError
        ("Remapping after IP change failed; Node is useless: Received request when expecting response"))]
  | .err _ => .ok [.error (.socketReceiveError .socketFailure)]
  | .panicked m => .error m

/-- How one iteration of the Worker loop ends: fall through to the next
iteration carrying the (possibly updated) remap interval, exit on Stop, or
die by panic. -/
inductive ThreadStep
  | nextIteration (remap_interval : DurationM)
  | stopped
  | panicStop (msg : String)
deriving DecidableEq, Repr

/-- Everything one Worker loop iteration did: the changes delivered to the
observer, the mapping-adder invocations (hole port, lifetime) made by the
renewal path, and how the iteration ended. -/
structure IterOutcome where
  changes : List AutomapChange
  adderCalls : List (Nat × Nat)
  step : ThreadStep
deriving DecidableEq, Repr

/-- Steps 2 and 3 of the Worker loop body: periodic renewal when the elapsed
time exceeds the remap interval (the todo invocation in the failure branch panics
with the standard Rust message), then a non-blocking drain of at most one
control command. -/
def PmpTransactor.renewAndDrain (chc : ChangeHandlerConfig)
    (interval elapsed : DurationM) (adder : Nat → Nat → Outcome Nat)
    (command : Option HousekeepingThreadCommand)
    (changes : List AutomapChange) : IterOutcome :=
  let afterRemap : List (Nat × Nat) × Option String :=
    if interval.toNanos < elapsed.toNanos then
      let call := (chc.hole_port, remapLifetimeSecs (DurationM.from_secs chc.lifetime))
      match PmpTransactor.remap_port adder chc.hole_port (DurationM.from_secs chc.lifetime) with
      | .ok _ => ([call], none)
      | .err _ => ([call], some ("not yet implemented"))
      | .panicked m => ([call], some m)
    else ([], none)
  match afterRemap with
  | (calls, some m) => ⟨changes, calls, .panicStop m⟩
  | (calls, none) =>
    match command with
    | some .stop => ⟨changes, calls, .stopped⟩
    | some (.setRemapIntervalMs ms) =>
      ⟨changes, calls, .nextIteration (DurationM.from_millis ms)⟩
    | none => ⟨changes, calls, .nextIteration interval⟩

/-- One iteration of PmpTransactor::thread_guts. recv_result scripts the
announcement-socket receive: on success it carries the source address and
the parse result of the datagram. The elapsed duration stands for
last_remapped.elapsed() at this iteration; adder stands for the shared dyn
MappingAdder; command is the head of the control queue, if any. A datagram
from a foreign source, or one that fails parse_buffer, short-circuits the
iteration (continue), skipping renewal and command drain. -/
def PmpTransactor.thread_iteration (router_addr : SockAddr) (chc : ChangeHandlerConfig)
    (interval elapsed : DurationM)
    (recv_result : Except IoErrorKind (SockAddr × Except String PmpPacket))
    (announce_env : TransactEnv) (adder : Nat → Nat → Outcome Nat)
    (command : Option HousekeepingThreadCommand) : IterOutcome :=
  match recv_result with
  | .ok (announcement_source_address, parsed) =>
    if announcement_source_address.ip ≠ router_addr.ip then
      ⟨[], [], .nextIteration interval⟩
    else
      match PmpTransactor.parse_buffer parsed announcement_source_address with
      | .ok public_ip =>
        match PmpTransactor.handle_announcement announce_env router_addr public_ip chc with
        | .ok changes => PmpTransactor.renewAndDrain chc interval elapsed adder command changes
        | .error m => ⟨[], [], .panicStop m⟩
      | .err _ => ⟨[], [], .nextIteration interval⟩
      | .panicked m => ⟨[], [], .panicStop m⟩
  | .error _ =>
    PmpTransactor.renewAndDrain chc interval elapsed adder command []

/-- A router address reused by concrete instances: 1.2.3.4:5351. -/
def sampleRouter : SockAddr := ⟨16909060, 5351⟩

/-- An environment whose receive produces a parseable packet. -/
def replyEnv (pkt : PmpPacket) : TransactEnv :=
  ⟨.ok (), .ok (), .ok (), .ok (.ok pkt), 5566⟩

/-- An environment whose receive times out. -/
def timeoutEnv : TransactEnv := ⟨.ok (), .ok (), .ok (), .error .timedOut, 5566⟩

/-- A mapping adder that reports a transient router failure, as a router
answering OutOfResources to the renewal would cause. -/
def failingAdder : Nat → Nat → Outcome Nat :=
  fun _ _ => .err (.temporaryMappingError ("OutOfResources"))

/-- C1: the claim states the intent of the spec, but the periodic-renewal
failure branch is todo!(): at an iteration where the remap interval has
expired and the mapping operation fails, the Worker delivers no
AutomapChange::Error to the observer and panics with the standard todo
message, terminating the thread, instead of continuing its loop. This
theorem evaluates the modelled iteration at that failing input. -/
theorem thread_guts_remap_failure_panics :
    PmpTransactor.thread_iteration sampleRouter ⟨6689, 1000⟩
      (DurationM.from_secs 1000) (DurationM.from_secs 1001)
      (.error .timedOut) timeoutEnv failingAdder none
      = ⟨[], [(6689, 1000)], .panicStop ("not yet implemented")⟩ := by
  decide

/-- C10: get_public_ip is not total over parseable responses: a parsed
packet with no result code (a Request-direction packet), a Success response
whose payload is not Get-shaped, and a Success Get response with no
external IP address each drive it into a panic via expect rather than an
AutomapError return. -/
theorem get_public_ip_panics_on_parseable_responses :
    PmpTransactor.get_public_ip sampleRouter
        (replyEnv ⟨.request, .get, none, .get none none⟩)
      = .panicked ("transact allowed absent result code")
    ∧ PmpTransactor.get_public_ip sampleRouter
        (replyEnv ⟨.response, .get, some .success, .map none 1 1 1⟩)
      = .panicked ("Response parsing inoperative - opcode data")
    ∧ PmpTransactor.get_public_ip sampleRouter
        (replyEnv ⟨.response, .get, some .success, .get none none⟩)
      = .panicked ("Response parsing inoperative - external IP address") := by
  exact ⟨rfl, rfl, rfl⟩

/-- C7: the renewal lifetime the Worker sends is the requested duration in
whole seconds, clamped up to a floor of 1; the hypothesis reflects that the
Worker always builds the duration from a u32 lifetime, so the u32 cast in
remap_port is lossless. -/
theorem remap_lifetime_is_clamped_floor (d : DurationM) (h : d.secs < 4294967296) :
    remapLifetimeSecs d = max 1 d.secs := by
  unfold remapLifetimeSecs
  rw [Nat.mod_eq_of_lt h]
  rcases Nat.eq_zero_or_pos d.secs with h0 | h1
  · simp [h0]
  · rw [if_neg (by omega)]
    omega

/-- Witness for C7 at a duration shorter than one second. -/
theorem remap_lifetime_is_clamped_floor_witness :
    (DurationM.from_millis 80).secs < 4294967296
    ∧ remapLifetimeSecs (DurationM.from_millis 80) = max 1 (DurationM.from_millis 80).secs :=
  ⟨by decide, remap_lifetime_is_clamped_floor (DurationM.from_millis 80) (by decide)⟩

/-- C8: an announcement datagram whose source IP differs from the
configured router IP is silently dropped: the iteration delivers no
AutomapChange, invokes no mapping operation, and falls through to the next
loop iteration with the interval unchanged. -/
theorem foreign_source_announcement_dropped (router_addr : SockAddr)
    (chc : ChangeHandlerConfig) (interval elapsed : DurationM) (source : SockAddr)
    (parsed : Except String PmpPacket) (announce_env : TransactEnv)
    (adder : Nat → Nat → Outcome Nat) (command : Option HousekeepingThreadCommand)
    (h : source.ip ≠ router_addr.ip) :
    PmpTransactor.thread_iteration router_addr chc interval elapsed
      (.ok (source, parsed)) announce_env adder command
      = ⟨[], [], .nextIteration interval⟩ := by
  simp [PmpTransactor.thread_iteration, h]

/-- Witness for C8: a datagram from 5.5.5.5 while the router is 1.2.3.4. -/
theorem foreign_source_announcement_dropped_witness :
    PmpTransactor.thread_iteration sampleRouter ⟨1234, 321⟩
      (DurationM.from_secs 321) (DurationM.from_secs 0)
      (.ok (⟨84215045, 5350⟩, .ok ⟨.response, .get, some .success, .get (some 0) (some 7)⟩))
      timeoutEnv failingAdder none
      = ⟨[], [], .nextIteration (DurationM.from_secs 321)⟩ :=
  foreign_source_announcement_dropped sampleRouter ⟨1234, 321⟩
    (DurationM.from_secs 321) (DurationM.from_secs 0) ⟨84215045, 5350⟩
    (.ok ⟨.response, .get, some .success, .get (some 0) (some 7)⟩)
    timeoutEnv failingAdder none (by decide)

/-- C2: when the transaction yields a MapTcp Response with result code
Success granting lifetime g, add_mapping returns exactly g / 2 (floor) and
overwrites the stored ChangeHandlerConfig with the requested hole port and
lifetime. -/
theorem add_mapping_success_halves_and_stores (m : TransactorModel)
    (router_addr : SockAddr) (hole_port lifetime : Nat) (env : TransactEnv)
    (epoch : Option Nat) (internal external granted : Nat)
    (hlt : 2 ≤ lifetime)
    (hb : env.bind_result = .ok ()) (hs : env.set_read_timeout_result = .ok ())
    (hsend : env.send_result = .ok ())
    (hrecv : env.recv_result
      = .ok (.ok ⟨.response, .mapTcp, some .success, .map epoch internal external granted⟩)) :
    PmpTransactor.add_mapping m router_addr hole_port lifetime env
      = (.ok (granted / 2),
         { m with change_handler_config_opt := some ⟨hole_port, lifetime⟩ }) := by
  simp [PmpTransactor.add_mapping, MappingAdderReal.add_mapping, PmpTransactor.transact,
    hb, hs, hsend, hrecv]

/-- Witness for C2 at spec scenario 2: hole port 7777, requested
lifetime 10000, granted lifetime 8000; the interval is 4000 and the stored
config becomes hole port 7777 with lifetime 10000. -/
theorem add_mapping_success_halves_and_stores_witness :
    PmpTransactor.add_mapping ⟨none, false, 0⟩ sampleRouter 7777 10000
      (replyEnv ⟨.response, .mapTcp, some .success, .map (some 4321) 7777 7777 8000⟩)
      = (.ok 4000, ⟨some ⟨7777, 10000⟩, false, 0⟩) := by
  exact add_mapping_success_halves_and_stores ⟨none, false, 0⟩ sampleRouter 7777 10000
    (replyEnv ⟨.response, .mapTcp, some .success, .map (some 4321) 7777 7777 8000⟩)
    (some 4321) 7777 7777 8000 (by decide) rfl rfl rfl rfl

/-- C3: when the transaction yields a MapTcp Response carrying a non-Success
result code c, add_mapping returns PermanentMappingError on the name of c
when c.is_permanent holds and TemporaryMappingError on it otherwise; in
particular it never returns ok there. -/
theorem add_mapping_classifies_failure_codes (router_addr : SockAddr)
    (hole_port lifetime : Nat) (env : TransactEnv)
    (epoch : Option Nat) (internal external granted : Nat) (rc : ResultCode)
    (hrc : rc ≠ .success)
    (hb : env.bind_result = .ok ()) (hs : env.set_read_timeout_result = .ok ())
    (hsend : env.send_result = .ok ())
    (hrecv : env.recv_result
      = .ok (.ok ⟨.response, .mapTcp, some rc, .map epoch internal external granted⟩)) :
    MappingAdderReal.add_mapping router_addr hole_port lifetime env
      = .err (if rc.is_permanent then .permanentMappingError (resultCodeName rc)
              else .temporaryMappingError (resultCodeName rc)) := by
  cases rc with
  | success => exact absurd rfl hrc
  | unsupportedVersion =>
    simp [MappingAdderReal.add_mapping, PmpTransactor.transact, hb, hs, hsend, hrecv,
      ResultCode.is_permanent, resultCodeName]
  | notAuthorized =>
    simp [MappingAdderReal.add_mapping, PmpTransactor.transact, hb, hs, hsend, hrecv,
      ResultCode.is_permanent, resultCodeName]
  | networkFailure =>
    simp [MappingAdderReal.add_mapping, PmpTransactor.transact, hb, hs, hsend, hrecv,
      ResultCode.is_permanent, resultCodeName]
  | outOfResources =>
    simp [MappingAdderReal.add_mapping, PmpTransactor.transact, hb, hs, hsend, hrecv,
      ResultCode.is_permanent, resultCodeName]
  | unsupportedOpcode =>
    simp [MappingAdderReal.add_mapping, PmpTransactor.transact, hb, hs, hsend, hrecv,
      ResultCode.is_permanent, resultCodeName]

/-- Witness for C3 at spec scenario 3: OutOfResources yields
TemporaryMappingError with the code name. -/
theorem add_mapping_classifies_failure_codes_witness :
    MappingAdderReal.add_mapping sampleRouter 7777 1234
      (replyEnv ⟨.response, .mapTcp, some .outOfResources, .map (some 4321) 7777 7777 1234⟩)
      = .err (if ResultCode.outOfResources.is_permanent
              then .permanentMappingError (resultCodeName .outOfResources)
              else .temporaryMappingError (resultCodeName .outOfResources)) := by
  exact add_mapping_classifies_failure_codes sampleRouter 7777 1234
    (replyEnv ⟨.response, .mapTcp, some .outOfResources, .map (some 4321) 7777 7777 1234⟩)
    (some 4321) 7777 7777 1234 .outOfResources (by decide) rfl rfl rfl rfl

/-- C4: when the transaction yields a parsed packet whose direction is
Request or whose opcode is not MapTcp, the facade add_mapping returns the
corresponding ProtocolError (the direction message taking precedence) and
leaves the stored ChangeHandlerConfig untouched. -/
theorem add_mapping_rejects_bad_direction_or_opcode (m : TransactorModel)
    (router_addr : SockAddr) (hole_port lifetime : Nat) (env : TransactEnv)
    (pkt : PmpPacket)
    (hb : env.bind_result = .ok ()) (hs : env.set_read_timeout_result = .ok ())
    (hsend : env.send_result = .ok ())
    (hrecv : env.recv_result = .ok (.ok pkt))
    (hbad : pkt.direction = .request ∨ pkt.opcode ≠ .mapTcp) :
    PmpTransactor.add_mapping m router_addr hole_port lifetime env
      = (.err (.protocolError
          (if pkt.direction = .request then ("Map response labeled as request")
           else ("Expected MapTcp response; got ") ++ opcodeName pkt.opcode
             ++ (" response instead"))), m) := by
  by_cases hdir : pkt.direction = .request
  · simp [PmpTransactor.add_mapping, MappingAdderReal.add_mapping, PmpTransactor.transact,
      hb, hs, hsend, hrecv, hdir]
  · have hop : pkt.opcode ≠ .mapTcp := by
      rcases hbad with h | h
      · exact absurd h hdir
      · exact h
    simp [PmpTransactor.add_mapping, MappingAdderReal.add_mapping, PmpTransactor.transact,
      hb, hs, hsend, hrecv, hdir, hop]

/-- Witness for C4: a Response with opcode Other(127) produces the opcode
ProtocolError and leaves the stored config as it was. -/
theorem add_mapping_rejects_bad_direction_or_opcode_witness :
    PmpTransactor.add_mapping ⟨some ⟨6666, 4321⟩, false, 0⟩ sampleRouter 6666 4321
      (replyEnv ⟨.response, .other 127, some .success, .unrecognized⟩)
      = (.err (.protocolError
          (if (PmpPacket.mk .response (.other 127) (some .success) .unrecognized).direction
              = .request then ("Map response labeled as request")
           else ("Expected MapTcp response; got ")
             ++ opcodeName (PmpPacket.mk .response (.other 127) (some .success) .unrecognized).opcode
             ++ (" response instead"))), ⟨some ⟨6666, 4321⟩, false, 0⟩) := by
  exact add_mapping_rejects_bad_direction_or_opcode ⟨some ⟨6666, 4321⟩, false, 0⟩
    sampleRouter 6666 4321
    (replyEnv ⟨.response, .other 127, some .success, .unrecognized⟩)
    ⟨.response, .other 127, some .success, .unrecognized⟩
    rfl rfl rfl rfl (Or.inr (by decide))

/-- C6: the Transaction Engine never retries: at most one send and at most
one receive per request, never a receive without a send; exactly one send
once the socket is bound and its timeout set; a timeout-class receive
failure (WouldBlock or TimedOut) returns exactly the 3-second ProtocolError;
any other receive failure returns SocketReceiveError. -/
theorem transact_single_exchange (router_addr : SockAddr) (request : PmpPacket)
    (env : TransactEnv) :
    ((PmpTransactor.transact router_addr request env).2.sends ≤ 1
      ∧ (PmpTransactor.transact router_addr request env).2.recvs
          ≤ (PmpTransactor.transact router_addr request env).2.sends)
    ∧ (env.bind_result = .ok () → env.set_read_timeout_result = .ok () →
        (PmpTransactor.transact router_addr request env).2.sends = 1)
    ∧ (∀ k : IoErrorKind, env.bind_result = .ok () →
        env.set_read_timeout_result = .ok () → env.send_result = .ok () →
        env.recv_result = .error k → (k = .wouldBlock ∨ k = .timedOut) →
        (PmpTransactor.transact router_addr request env).1
          = .err (.protocolError ("Timed out after 3 seconds")))
    ∧ (∀ s : String, env.bind_result = .ok () →
        env.set_read_timeout_result = .ok () → env.send_result = .ok () →
        env.recv_result = .error (.otherError s) →
        (PmpTransactor.transact router_addr request env).1
          = .err (.socketReceiveError (.unknown s))) := by
  obtain ⟨b, st, sd, rv, fp⟩ := env
  refine ⟨?_, ?_, ?_, ?_⟩
  · cases b with
    | error e => simp [PmpTransactor.transact]
    | ok u =>
      cases st with
      | error e => simp [PmpTransactor.transact]
      | ok u2 =>
        cases sd with
        | error e => simp [PmpTransactor.transact]
        | ok u3 =>
          cases rv with
          | error k =>
            by_cases hk : k = .wouldBlock ∨ k = .timedOut
            · simp [PmpTransactor.transact, hk]
            · simp [PmpTransactor.transact, hk]
          | ok parsed =>
            cases parsed with
            | error pe => simp [PmpTransactor.transact]
            | ok pkt => simp [PmpTransactor.transact]
  · intro hb hs
    simp only at hb hs
    subst hb
    subst hs
    cases sd with
    | error e => simp [PmpTransactor.transact]
    | ok u3 =>
      cases rv with
      | error k =>
        by_cases hk : k = .wouldBlock ∨ k = .timedOut
        · simp [PmpTransactor.transact, hk]
        · simp [PmpTransactor.transact, hk]
      | ok parsed =>
        cases parsed with
        | error pe => simp [PmpTransactor.transact]
        | ok pkt => simp [PmpTransactor.transact]
  · intro k hb hs hsend hrecv hk
    simp only at hb hs hsend hrecv
    subst hb
    subst hs
    subst hsend
    subst hrecv
    simp [PmpTransactor.transact, hk]
  · intro s hb hs hsend hrecv
    simp only at hb hs hsend hrecv
    subst hb
    subst hs
    subst hsend
    subst hrecv
    simp [PmpTransactor.transact, IoErrorKind.describe]

/-- Witness for C6: a 3-second silence surfaces as the timeout
ProtocolError. -/
theorem transact_single_exchange_witness :
    (PmpTransactor.transact sampleRouter
        ⟨.request, .get, none, .get none none⟩ timeoutEnv).1
      = .err (.protocolError ("Timed out after 3 seconds")) :=
  (transact_single_exchange sampleRouter ⟨.request, .get, none, .get none none⟩
    timeoutEnv).2.2.1 .timedOut rfl rfl rfl rfl (Or.inr rfl)

/-- An environment in which the router grants a MapTcp mapping. -/
def grantEnv : TransactEnv :=
  replyEnv ⟨.response, .mapTcp, some .success, .map (some 0) 7777 7777 8000⟩

/-- State after a successful add_mapping on a fresh transactor. -/
def c5_after_add : TransactorModel :=
  (PmpTransactor.add_mapping ⟨none, false, 0⟩ sampleRouter 7777 10000 grantEnv).2

/-- First Worker start on that state. -/
def c5_first_start : StartResult × TransactorModel :=
  PmpTransactor.start_housekeeping_thread c5_after_add 5350 (.ok ())

/-- Second Worker start, after a stop releases the commander. -/
def c5_second_start : StartResult × TransactorModel :=
  PmpTransactor.start_housekeeping_thread
    (PmpTransactor.stop_housekeeping_thread c5_first_start.2) 5350 (.ok ())

/-- C5 counterexample: the call sequence add_mapping, start, stop, start on
one facade instance makes the second start succeed and creates a second
Worker, refuting the clause that at most one Worker is ever created per
instance and that a second start attempt is an error. -/
theorem second_worker_created_after_stop :
    c5_first_start.1 = .started ⟨7777, 10000⟩
    ∧ c5_second_start.1 = .started ⟨7777, 10000⟩
    ∧ c5_second_start.2.workers_created = 2 := by
  decide

/-- C5 as amended: start_housekeeping_thread fails with
ChangeHandlerAlreadyRunning whenever a Worker commander is held; otherwise
fails with ChangeHandlerUnconfigured whenever no ChangeHandlerConfig is
stored; otherwise fails with SocketBindingError when the announcement
socket cannot be bound; otherwise succeeds, holding the commander and
creating one more Worker. At most one commander is held at a time, but
after stop_housekeeping_thread releases it a later start creates a further
Worker. -/
theorem start_housekeeping_thread_cases (m : TransactorModel) (listen_port : Nat)
    (bind_result : Except String Unit) :
    (m.housekeeper_commander = true →
      PmpTransactor.start_housekeeping_thread m listen_port bind_result
        = (.alreadyRunning, m))
    ∧ (m.housekeeper_commander = false → m.change_handler_config_opt = none →
      PmpTransactor.start_housekeeping_thread m listen_port bind_result
        = (.unconfigured, m))
    ∧ (∀ (chc : ChangeHandlerConfig) (e : String), m.housekeeper_commander = false →
        m.change_handler_config_opt = some chc → bind_result = .error e →
        PmpTransactor.start_housekeeping_thread m listen_port bind_result
          = (.bindingError e ⟨multicast_ip, listen_port⟩, m))
    ∧ (∀ chc : ChangeHandlerConfig, m.housekeeper_commander = false →
        m.change_handler_config_opt = some chc → bind_result = .ok () →
        PmpTransactor.start_housekeeping_thread m listen_port bind_result
          = (.started chc,
             { m with housekeeper_commander := true,
                      workers_created := m.workers_created + 1 })) := by
  refine ⟨?_, ?_, ?_, ?_⟩
  · intro hc
    simp [PmpTransactor.start_housekeeping_thread, hc]
  · intro hc hcfg
    simp [PmpTransactor.start_housekeeping_thread, hc, hcfg]
  · intro chc e hc hcfg hbind
    simp [PmpTransactor.start_housekeeping_thread, hc, hcfg, hbind]
  · intro chc hc hcfg hbind
    simp [PmpTransactor.start_housekeeping_thread, hc, hcfg, hbind]

/-- Witness for C5 as amended: a start attempt while the commander is held
fails with ChangeHandlerAlreadyRunning. -/
theorem start_housekeeping_thread_cases_witness :
    PmpTransactor.start_housekeeping_thread ⟨some ⟨7777, 10000⟩, true, 1⟩ 5350 (.ok ())
      = (.alreadyRunning, ⟨some ⟨7777, 10000⟩, true, 1⟩) :=
  (start_housekeeping_thread_cases ⟨some ⟨7777, 10000⟩, true, 1⟩ 5350 (.ok ())).1 rfl

/-- C9: a successful delete_mapping stores ChangeHandlerConfig with the
given hole port and lifetime 0 (it is add_mapping with lifetime 0, which
stores its arguments on success), so a Worker started after the delete and
before any further add_mapping snapshots a configuration whose lifetime
is 0. -/
theorem delete_mapping_stores_zero_lifetime (m : TransactorModel)
    (router_addr : SockAddr) (hole_port : Nat) (env : TransactEnv)
    (hok : (PmpTransactor.delete_mapping m router_addr hole_port env).1 = .ok ())
    (hnc : m.housekeeper_commander = false) :
    (PmpTransactor.delete_mapping m router_addr hole_port env).2.change_handler_config_opt
      = some ⟨hole_port, 0⟩
    ∧ (PmpTransactor.start_housekeeping_thread
        (PmpTransactor.delete_mapping m router_addr hole_port env).2 5350 (.ok ())).1
      = .started ⟨hole_port, 0⟩ := by
  unfold PmpTransactor.delete_mapping PmpTransactor.add_mapping at hok ⊢
  cases hr : MappingAdderReal.add_mapping router_addr hole_port 0 env with
  | ok v => simp [hr, PmpTransactor.start_housekeeping_thread, hnc]
  | err e =>
    rw [hr] at hok
    simp at hok
  | panicked s =>
    rw [hr] at hok
    simp at hok

/-- Witness for C9: deleting hole port 7777 against a granting router
stores lifetime 0, and the next Worker start snapshots it. -/
theorem delete_mapping_stores_zero_lifetime_witness :
    (PmpTransactor.delete_mapping ⟨some ⟨7777, 10000⟩, false, 0⟩ sampleRouter 7777
        grantEnv).2.change_handler_config_opt = some ⟨7777, 0⟩
    ∧ (PmpTransactor.start_housekeeping_thread
        (PmpTransactor.delete_mapping ⟨some ⟨7777, 10000⟩, false, 0⟩ sampleRouter 7777
          grantEnv).2 5350 (.ok ())).1
      = .started ⟨7777, 0⟩ :=
  delete_mapping_stores_zero_lifetime ⟨some ⟨7777, 10000⟩, false, 0⟩ sampleRouter 7777
    grantEnv (by decide) rfl
